import Mathlib

/-!
Verification of `react-redux-api-middleware` (src/src/lib/index.js and the
apiClient module): a shallow embedding of the data flow of the middleware.

JavaScript values that cross the middleware boundary (actions, call
descriptors, options, metadata, errors) are modelled by `JValue`, a
JSON-like dynamic value with an extra `jsError` constructor for `Error`
instances (an `Error` carries a non-enumerable `message` plus any
enumerable fields assigned onto it, such as `unauthorized`).

Objects are association lists where a LATER binding shadows an earlier
one; field lookup reads the last binding. With that convention the JS
spread `{ ...a, k: v }` is list append, and property assignment
`o.k = v` is appending one binding, both preserving lookup semantics.
-/

/-- A JavaScript runtime value, as seen by the middleware. Numbers are
modelled as integers (no claim exercises float behaviour). -/
inductive JValue where
  | null
  | undefined
  | bool (b : Bool)
  | num (n : Int)
  | str (s : String)
  | jsError (message : String) (extra : List (String × JValue))
  | obj (fields : List (String × JValue))

mutual
/-- Structural boolean equality on `JValue` (the derive handler does not
support this nested inductive, so it is spelled out). -/
def JValue.beq : JValue → JValue → Bool
  | .null, .null => true
  | .undefined, .undefined => true
  | .bool a, .bool b => a == b
  | .num a, .num b => a == b
  | .str a, .str b => a == b
  | .jsError m a, .jsError m2 b => m == m2 && JValue.beqFields a b
  | .obj a, .obj b => JValue.beqFields a b
  | _, _ => false

/-- Boolean equality on field lists. -/
def JValue.beqFields : List (String × JValue) → List (String × JValue) → Bool
  | [], [] => true
  | (k, v) :: r, (k2, v2) :: r2 => k == k2 && JValue.beq v v2 && JValue.beqFields r r2
  | _, _ => false
end

mutual
theorem JValue.beq_refl : ∀ a : JValue, JValue.beq a a = true
  | .null => rfl
  | .undefined => rfl
  | .bool a => by simp [JValue.beq]
  | .num a => by simp [JValue.beq]
  | .str a => by simp [JValue.beq]
  | .jsError m a => by simp [JValue.beq, JValue.beqFields_refl a]
  | .obj a => by simp [JValue.beq, JValue.beqFields_refl a]

theorem JValue.beqFields_refl : ∀ l : List (String × JValue), JValue.beqFields l l = true
  | [] => rfl
  | (k, v) :: r => by
      simp [JValue.beqFields, JValue.beq_refl v, JValue.beqFields_refl r]
end

mutual
theorem JValue.eq_of_beq : ∀ a b : JValue, JValue.beq a b = true → a = b
  | .null, .null, _ => rfl
  | .undefined, .undefined, _ => rfl
  | .bool a, .bool b, h => by simpa [JValue.beq] using h
  | .num a, .num b, h => by simpa [JValue.beq] using h
  | .str a, .str b, h => by simpa [JValue.beq] using h
  | .jsError m a, .jsError m2 b, h => by
      simp only [JValue.beq, Bool.and_eq_true, beq_iff_eq] at h
      exact h.1 ▸ JValue.eq_of_beqFields a b h.2 ▸ rfl
  | .obj a, .obj b, h => by
      simp only [JValue.beq] at h
      exact JValue.eq_of_beqFields a b h ▸ rfl
  | .null, .undefined, h => by simp [JValue.beq] at h
  | .null, .bool _, h => by simp [JValue.beq] at h
  | .null, .num _, h => by simp [JValue.beq] at h
  | .null, .str _, h => by simp [JValue.beq] at h
  | .null, .jsError _ _, h => by simp [JValue.beq] at h
  | .null, .obj _, h => by simp [JValue.beq] at h
  | .undefined, .null, h => by simp [JValue.beq] at h
  | .undefined, .bool _, h => by simp [JValue.beq] at h
  | .undefined, .num _, h => by simp [JValue.beq] at h
  | .undefined, .str _, h => by simp [JValue.beq] at h
  | .undefined, .jsError _ _, h => by simp [JValue.beq] at h
  | .undefined, .obj _, h => by simp [JValue.beq] at h
  | .bool _, .null, h => by simp [JValue.beq] at h
  | .bool _, .undefined, h => by simp [JValue.beq] at h
  | .bool _, .num _, h => by simp [JValue.beq] at h
  | .bool _, .str _, h => by simp [JValue.beq] at h
  | .bool _, .jsError _ _, h => by simp [JValue.beq] at h
  | .bool _, .obj _, h => by simp [JValue.beq] at h
  | .num _, .null, h => by simp [JValue.beq] at h
  | .num _, .undefined, h => by simp [JValue.beq] at h
  | .num _, .bool _, h => by simp [JValue.beq] at h
  | .num _, .str _, h => by simp [JValue.beq] at h
  | .num _, .jsError _ _, h => by simp [JValue.beq] at h
  | .num _, .obj _, h => by simp [JValue.beq] at h
  | .str _, .null, h => by simp [JValue.beq] at h
  | .str _, .undefined, h => by simp [JValue.beq] at h
  | .str _, .bool _, h => by simp [JValue.beq] at h
  | .str _, .num _, h => by simp [JValue.beq] at h
  | .str _, .jsError _ _, h => by simp [JValue.beq] at h
  | .str _, .obj _, h => by simp [JValue.beq] at h
  | .jsError _ _, .null, h => by simp [JValue.beq] at h
  | .jsError _ _, .undefined, h => by simp [JValue.beq] at h
  | .jsError _ _, .bool _, h => by simp [JValue.beq] at h
  | .jsError _ _, .num _, h => by simp [JValue.beq] at h
  | .jsError _ _, .str _, h => by simp [JValue.beq] at h
  | .jsError _ _, .obj _, h => by simp [JValue.beq] at h
  | .obj _, .null, h => by simp [JValue.beq] at h
  | .obj _, .undefined, h => by simp [JValue.beq] at h
  | .obj _, .bool _, h => by simp [JValue.beq] at h
  | .obj _, .num _, h => by simp [JValue.beq] at h
  | .obj _, .str _, h => by simp [JValue.beq] at h
  | .obj _, .jsError _ _, h => by simp [JValue.beq] at h

theorem JValue.eq_of_beqFields :
    ∀ l1 l2 : List (String × JValue), JValue.beqFields l1 l2 = true → l1 = l2
  | [], [], _ => rfl
  | (k, v) :: r, (k2, v2) :: r2, h => by
      simp only [JValue.beqFields, Bool.and_eq_true, beq_iff_eq] at h
      rw [h.1.1, JValue.eq_of_beq v v2 h.1.2, JValue.eq_of_beqFields r r2 h.2]
  | [], _ :: _, h => by simp [JValue.beqFields] at h
  | _ :: _, [], h => by simp [JValue.beqFields] at h
end

instance : DecidableEq JValue := fun a b =>
  decidable_of_iff (JValue.beq a b = true)
    ⟨JValue.eq_of_beq a b, fun h => h ▸ JValue.beq_refl a⟩

/-- Last-binding-wins lookup on an association list; `none` when the key
has no binding at all (a stored `undefined` is still `some .undefined`,
exactly as a JS own property holding `undefined`). -/
def lookupJ (fields : List (String × JValue)) (k : String) : Option JValue :=
  (fields.reverse.find? (fun p => p.1 = k)).map (fun p => p.2)

/-- JS property read `v[k]` on values where it does not throw: missing
keys and non-object receivers (other than null/undefined, which the
embedding guards explicitly at each access site) read as `undefined`.
On an `Error`, enumerable assigned fields shadow the built-in `message`. -/
def getField (v : JValue) (k : String) : JValue :=
  match v with
  | .obj fs => (lookupJ fs k).getD .undefined
  | .jsError msg ext =>
      (lookupJ ext k).getD (if k = "message" then .str msg else .undefined)
  | _ => .undefined

/-- Whether `v` has an own (or, for Error, built-in `message`) property `k`. -/
def hasField (v : JValue) (k : String) : Bool :=
  match v with
  | .obj fs => fs.any (fun p => p.1 = k)
  | .jsError _ ext => ext.any (fun p => p.1 = k) || k = "message"
  | _ => false

/-- The own enumerable fields contributed by `...v` in an object literal:
the bindings of an object, the assigned extras of an Error (`message` is not
enumerable), and nothing for null/undefined/primitives. -/
def spreadFields (v : JValue) : List (String × JValue) :=
  match v with
  | .obj fs => fs
  | .jsError _ ext => ext
  | _ => []

/-- JS truthiness. -/
def truthy (v : JValue) : Bool :=
  match v with
  | .null => false
  | .undefined => false
  | .bool b => b
  | .num n => n != 0
  | .str s => s != ""
  | .jsError _ _ => true
  | .obj _ => true

/-- Whether `typeof v === "string"`. -/
def isString (v : JValue) : Bool :=
  match v with
  | .str _ => true
  | _ => false

/-- JS `v.toString()`: throws (`none`) on null/undefined, otherwise the JS
string coercion of the modelled value (plain objects print as
"[object Object]"; an Error prints as "Error: " + message). -/
def jsToString (v : JValue) : Option String :=
  match v with
  | .null => none
  | .undefined => none
  | .bool b => some (cond b "true" "false")
  | .num n => some (toString n)
  | .str s => some s
  | .jsError msg _ => some ("Error: " ++ msg)
  | .obj _ => some "[object Object]"

/-- Escape one character for a JSON string literal (quote and backslash;
the bodies the claims exercise need no control-character escapes). -/
def jsonEscChar (c : Char) : String :=
  if c = '"' then "\\\"" else if c = '\\' then "\\\\" else String.singleton c

/-- Quote a string as a JSON string literal. -/
def jsonQuote (s : String) : String :=
  "\"" ++ String.join (s.toList.map jsonEscChar) ++ "\""

mutual
/-- Model of `JSON.stringify(v)` on the modelled values: null/booleans/numbers/
strings/objects as in JSON; an Error serializes its enumerable fields. -/
def jsonStringify : JValue → String
  | .null => "null"
  | .undefined => "null"
  | .bool b => cond b "true" "false"
  | .num n => toString n
  | .str s => jsonQuote s
  | .jsError _ ext => "\x7b" ++ String.intercalate "," (jsonFieldStrs ext) ++ "\x7d"
  | .obj fs => "\x7b" ++ String.intercalate "," (jsonFieldStrs fs) ++ "\x7d"

/-- Serialize the fields of an object, skipping `undefined` values as
`JSON.stringify` does. -/
def jsonFieldStrs : List (String × JValue) → List String
  | [] => []
  | (k, v) :: rest =>
    match v with
    | .undefined => jsonFieldStrs rest
    | _ => (jsonQuote k ++ ":" ++ jsonStringify v) :: jsonFieldStrs rest
end

/-! ## The source embedding: apiMiddleware.js constants and constructors

These definitions follow src/src/lib/index.js (the configuration-taking
variant whose `createErrorAction` also echoes `actionName`). -/

/-- The marker key under which an action carries its Call Descriptor. -/
def API_CALL : String := "API_CALL"

/-- apiActionType.LOADING. -/
def apiActionType.LOADING : String := "LOADING"

/-- apiActionType.SUCCESS. -/
def apiActionType.SUCCESS : String := "SUCCESS"

/-- apiActionType.ERROR. -/
def apiActionType.ERROR : String := "ERROR"

/-- Source `createApiActionSet(actionName)`: the three suffixed type strings plus
the base name. -/
def createApiActionSet (actionName : String) : JValue :=
  .obj [("LOADING", .str (actionName ++ "_" ++ apiActionType.LOADING)),
        ("SUCCESS", .str (actionName ++ "_" ++ apiActionType.SUCCESS)),
        ("ERROR", .str (actionName ++ "_" ++ apiActionType.ERROR)),
        ("actionName", .str actionName)]

/-- Source `createLoadingAction(actions, meta)`: the literal fields in source
order, then the `...meta` spread (which, appended last, shadows them on
lookup exactly as the JS spread does). -/
def createLoadingAction (actions meta : JValue) : JValue :=
  .obj ([("type", getField actions "LOADING"),
         ("apiActionType", .str apiActionType.LOADING),
         ("actionName", getField actions "actionName")] ++ spreadFields meta)

/-- Source `createSuccessAction(actions, response, meta)`. -/
def createSuccessAction (actions response meta : JValue) : JValue :=
  .obj ([("type", getField actions "SUCCESS"),
         ("apiActionType", .str apiActionType.SUCCESS),
         ("actionName", getField actions "actionName"),
         ("response", response)] ++ spreadFields meta)

/-- Source `createErrorAction(actions, error, meta)`: evaluates
`error.toString()` while building the literal, so the whole call throws
(`Except.error`) when `error` is null or undefined. -/
def createErrorAction (actions error meta : JValue) : Except String JValue :=
  match jsToString error with
  | none => .error "TypeError: error.toString is not accessible on null or undefined"
  | some s =>
      .ok (.obj ([("type", getField actions "ERROR"),
                  ("apiActionType", .str apiActionType.ERROR),
                  ("rawError", error),
                  ("error", .str s),
                  ("actionName", getField actions "actionName")] ++ spreadFields meta))

/-! ## The source embedding: apiClient.js -/

/-- Source `handleSuccessfulResponse(response)`: resolves with the parsed JSON
body (`response.json()`); the parsed body is the `jsonBody` argument of
`callApiHandleResponse`. -/
def handleSuccessfulResponse (jsonBody : JValue) : Except JValue JValue :=
  .ok jsonBody

/-- Source `handleUnauthorizedResponse()`: rejects with
`new Error("401 - Unauthorized")` carrying `unauthorized = true`. -/
def handleUnauthorizedResponse : Except JValue JValue :=
  .error (.jsError "401 - Unauthorized" [("unauthorized", .bool true)])

/-- Source `handleErrorResponse(response)`: rejects with the parsed JSON error
body itself. -/
def handleErrorResponse (jsonBody : JValue) : Except JValue JValue :=
  .error jsonBody

/-- The response dispatch inside the `fetch(...).then(...)` of `callApi`:
2xx to the success handler, 401 to the unauthorized handler, everything
else to the error handler. `jsonBody` is what `response.json()` parses. -/
def callApiHandleResponse (status : Nat) (jsonBody : JValue) : Except JValue JValue :=
  if 200 ≤ status ∧ status < 300 then handleSuccessfulResponse jsonBody
  else if status = 401 then handleUnauthorizedResponse
  else handleErrorResponse jsonBody

/-- The `params` object `callApi` passes to `fetch`: `{ ...options,
method }` (with `method` defaulting to GET when the argument is
undefined), and for POST exactly, the assignments `params.body = body &&
JSON.stringify(body)` and `params.headers = { ...params.headers,
Content-Type }` assignment. Assignments are appended
bindings, which last-wins lookup reads back correctly. -/
def callApiParams (body method options : JValue) : JValue :=
  let m := match method with
           | .undefined => JValue.str "GET"
           | _ => method
  let params := spreadFields options ++ [("method", m)]
  if m = .str "POST" then
    let params2 := params ++
      [("body", if truthy body then .str (jsonStringify body) else body)]
    let headers := spreadFields ((lookupJ params2 "headers").getD .undefined) ++
      [("Content-Type", .str "application/json;")]
    .obj (params2 ++ [("headers", .obj headers)])
  else
    .obj params

/-! ## The source embedding: apiMiddleware -/

/-- The middleware configuration: `getAuthToken` is either a configured
token source (a function of the store, as in `getAuthToken(store)`) or
a falsy value (`defaultConfig = {}` leaves it undefined;
`defaultPrefs` sets it to null), modelled as `none`. -/
structure Config where
  getAuthToken : Option (JValue → String)

/-- Source `defaultConfig = {}`: no token source. -/
def defaultConfig : Config := ⟨none⟩

/-- Source `defaultPrefs = { getAuthToken: null }`: also no token source. -/
def defaultPrefs : Config := ⟨none⟩

/-- The operational outcome of one middleware invocation, summarizing
every call to `next` in order and how the invocation returns:

* `syncThrow msg`: the body threw synchronously; `next` was never called.
* `passthrough a`: `next(a)` was called once (forwarding the action
  unchanged) and its return value returned.
* `settled l f`: `next(l)` was dispatched synchronously before the
  transport settled, then the settling continuation dispatched `next(f)`
  and the returned promise resolves with that value.
* `rejectedHandler l msg`: `next(l)` was dispatched, the transport
  rejected, and the rejection continuation itself threw, so no second
  lifecycle message was dispatched and the returned promise rejects. -/
inductive MWOutcome where
  | syncThrow (msg : String)
  | passthrough (a : JValue)
  | settled (loading final : JValue)
  | rejectedHandler (loading : JValue) (msg : String)
deriving DecidableEq

/-- The arguments `next` received, in dispatch order. -/
def nextCalls : MWOutcome → List JValue
  | .syncThrow _ => []
  | .passthrough a => [a]
  | .settled l f => [l, f]
  | .rejectedHandler l _ => [l]

/-- The validation gate of the middleware (its three throw conditions
negated): `typeof url` must be string, `actions` truthy, and
`actions.SUCCESS`, `actions.ERROR`, `actions.LOADING` all truthy. -/
def validApiCall (apiCall : JValue) : Bool :=
  isString (getField apiCall "url") &&
  truthy (getField apiCall "actions") &&
  truthy (getField (getField apiCall "actions") "SUCCESS") &&
  truthy (getField (getField apiCall "actions") "ERROR") &&
  truthy (getField (getField apiCall "actions") "LOADING")

/-- Lines 63-73 of index.js: `let apiOptions = { ...options }` and, when
`authenticated` (destructured with default `true`, which fires only on
an undefined property) and `getAuthToken` are both truthy, the
spread-merge that appends the Authorization header. -/
def buildApiOptions (config : Config) (store : JValue) (apiCall : JValue) : JValue :=
  let options := getField apiCall "options"
  let authenticated := match getField apiCall "authenticated" with
                       | .undefined => JValue.bool true
                       | v => v
  let apiOptions := JValue.obj (spreadFields options)
  match config.getAuthToken with
  | some tok =>
      if truthy authenticated then
        .obj (spreadFields apiOptions ++
          [("headers", .obj (spreadFields (getField apiOptions "headers") ++
            [("Authorization", .str ("Bearer " ++ tok store))]))])
      else apiOptions
  | none => apiOptions

/-- The middleware body `store => next => action => ...`. The external
transport is a parameter: `transport url body method apiOptions` is the
settled outcome of `callApi(url, body, method, apiOptions)` — `.ok
response` when its promise resolves, `.error e` when it rejects
(`callApiHandleResponse` produces exactly these outcomes from a fetch
response). Property accesses on null/undefined throw, which the
embedding makes explicit where the source can reach them: reading
`action[API_CALL]`, destructuring a null descriptor, and the rejection
`error.unauthorized` read in the rejection handler. -/
def apiMiddleware (config : Config) (store : JValue) (action : JValue)
    (transport : JValue → JValue → JValue → JValue → Except JValue JValue) : MWOutcome :=
  match action with
  | .null => .syncThrow "TypeError: cannot read properties of null"
  | .undefined => .syncThrow "TypeError: cannot read properties of undefined"
  | _ =>
    let apiCall := getField action API_CALL
    if apiCall = .undefined then .passthrough action
    else if apiCall = .null then .syncThrow "TypeError: cannot destructure null"
    else
      let url := getField apiCall "url"
      let actions := getField apiCall "actions"
      let meta := getField apiCall "meta"
      if ¬ isString url then
        .syncThrow "Api call action does not contain url string"
      else if ¬ truthy actions then
        .syncThrow "Api call action does not contain action group"
      else if ¬ (truthy (getField actions "SUCCESS") &&
                 truthy (getField actions "ERROR") &&
                 truthy (getField actions "LOADING")) then
        .syncThrow "Api call does not contain a correct action group. Please use createApiActionSet to create actions."
      else
        let loading := createLoadingAction actions meta
        match transport url (getField apiCall "body") (getField apiCall "method")
              (buildApiOptions config store apiCall) with
        | .ok response => .settled loading (createSuccessAction actions response meta)
        | .error e =>
          match e with
          | .null => .rejectedHandler loading "TypeError: cannot read properties of null"
          | .undefined => .rejectedHandler loading "TypeError: cannot read properties of undefined"
          | _ =>
            match createErrorAction actions e meta with
            | .ok a => .settled loading a
            | .error msg => .rejectedHandler loading msg

deriving instance DecidableEq for Except

/-! ## Lookup lemmas for the association-list object model -/

theorem lookupJ_append (a b : List (String × JValue)) (k : String) :
    lookupJ (a ++ b) k = (lookupJ b k).or (lookupJ a k) := by
  unfold lookupJ
  rw [List.reverse_append, List.find?_append]
  cases h : b.reverse.find? (fun p => p.1 = k) <;> simp [h]

theorem lookupJ_singleton (k0 k : String) (v : JValue) :
    lookupJ [(k0, v)] k = if k0 = k then some v else none := by
  simp [lookupJ, List.find?]
  split <;> simp_all

theorem getField_obj_append_last (l : List (String × JValue)) (k0 : String) (v : JValue) :
    getField (.obj (l ++ [(k0, v)])) k0 = v := by
  simp [getField, lookupJ_append, lookupJ_singleton]

theorem getField_obj_append_other (l : List (String × JValue)) (k0 k : String) (v : JValue)
    (h : k0 ≠ k) : getField (.obj (l ++ [(k0, v)])) k = getField (.obj l) k := by
  simp [getField, lookupJ_append, lookupJ_singleton, h]

/-- Whether a value is `undefined` or a plain object — the shapes the
spec allows for the optional `options`, `headers` and `meta` mappings. -/
def isUndefOrObj (v : JValue) : Bool :=
  match v with
  | .undefined => true
  | .obj _ => true
  | _ => false

theorem getField_obj_spread (v : JValue) (k : String) (h : isUndefOrObj v = true) :
    getField (.obj (spreadFields v)) k = getField v k := by
  cases v <;> simp_all [isUndefOrObj, spreadFields, getField, lookupJ]

theorem lookupJ_eq_none (l : List (String × JValue)) (k : String)
    (h : l.any (fun p => p.1 = k) = false) : lookupJ l k = none := by
  unfold lookupJ
  rw [List.find?_eq_none.mpr]
  · rfl
  · intro p hp
    rw [List.mem_reverse] at hp
    rw [List.any_eq_false] at h
    simpa using h p hp

theorem getField_eq_undefined_of_not_hasField (v : JValue) (k : String)
    (h : hasField v k = false) : getField v k = .undefined := by
  cases v with
  | obj fs =>
      simp only [hasField] at h
      simp [getField, lookupJ_eq_none fs k h]
  | jsError m ext =>
      simp only [hasField, Bool.or_eq_false_iff] at h
      have hk : k ≠ "message" := by simpa using h.2
      simp [getField, lookupJ_eq_none ext k h.1, hk]
  | null => rfl
  | undefined => rfl
  | bool b => rfl
  | num n => rfl
  | str s => rfl

/-! ## Unfolding lemmas for the middleware paths -/

theorem validApiCall_ne_null (apiCall : JValue) (h : validApiCall apiCall = true) :
    apiCall ≠ .null := by
  intro hn
  rw [hn] at h
  simp [validApiCall, getField, isString] at h

theorem apiMiddleware_valid_eq (config : Config) (store action : JValue)
    (transport : JValue → JValue → JValue → JValue → Except JValue JValue)
    (h0 : action ≠ .null) (h1 : action ≠ .undefined)
    (h2 : getField action API_CALL ≠ .undefined)
    (h3 : validApiCall (getField action API_CALL) = true) :
    apiMiddleware config store action transport =
      (let apiCall := getField action API_CALL
       let actions := getField apiCall "actions"
       let meta := getField apiCall "meta"
       let loading := createLoadingAction actions meta
       match transport (getField apiCall "url") (getField apiCall "body")
             (getField apiCall "method") (buildApiOptions config store apiCall) with
       | .ok response => .settled loading (createSuccessAction actions response meta)
       | .error e =>
         match e with
         | .null => .rejectedHandler loading "TypeError: cannot read properties of null"
         | .undefined => .rejectedHandler loading "TypeError: cannot read properties of undefined"
         | _ =>
           match createErrorAction actions e meta with
           | .ok a => .settled loading a
           | .error msg => .rejectedHandler loading msg) := by
  have hvn := validApiCall_ne_null _ h3
  simp only [validApiCall, Bool.and_eq_true] at h3
  obtain ⟨⟨⟨⟨hu, ha⟩, hs⟩, he⟩, hl⟩ := h3
  cases action with
  | null => exact absurd rfl h0
  | undefined => exact absurd rfl h1
  | bool b =>
      simp only [apiMiddleware, if_neg h2, if_neg hvn, hu, ha, hs, he, hl]
      simp
  | num n =>
      simp only [apiMiddleware, if_neg h2, if_neg hvn, hu, ha, hs, he, hl]
      simp
  | str s =>
      simp only [apiMiddleware, if_neg h2, if_neg hvn, hu, ha, hs, he, hl]
      simp
  | jsError m ext =>
      simp only [apiMiddleware, if_neg h2, if_neg hvn, hu, ha, hs, he, hl]
      simp
  | obj fs =>
      simp only [apiMiddleware, if_neg h2, if_neg hvn, hu, ha, hs, he, hl]
      simp

theorem apiMiddleware_eq_body (config : Config) (store action : JValue)
    (transport : JValue → JValue → JValue → JValue → Except JValue JValue)
    (h0 : action ≠ .null) (h1 : action ≠ .undefined) :
    apiMiddleware config store action transport =
      (let apiCall := getField action API_CALL
       if apiCall = .undefined then .passthrough action
       else if apiCall = .null then .syncThrow "TypeError: cannot destructure null"
       else
         let url := getField apiCall "url"
         let actions := getField apiCall "actions"
         let meta := getField apiCall "meta"
         if ¬ isString url then
           .syncThrow "Api call action does not contain url string"
         else if ¬ truthy actions then
           .syncThrow "Api call action does not contain action group"
         else if ¬ (truthy (getField actions "SUCCESS") &&
                    truthy (getField actions "ERROR") &&
                    truthy (getField actions "LOADING")) then
           .syncThrow "Api call does not contain a correct action group. Please use createApiActionSet to create actions."
         else
           let loading := createLoadingAction actions meta
           match transport url (getField apiCall "body") (getField apiCall "method")
                 (buildApiOptions config store apiCall) with
           | .ok response => .settled loading (createSuccessAction actions response meta)
           | .error e =>
             match e with
             | .null => .rejectedHandler loading "TypeError: cannot read properties of null"
             | .undefined => .rejectedHandler loading "TypeError: cannot read properties of undefined"
             | _ =>
               match createErrorAction actions e meta with
               | .ok a => .settled loading a
               | .error msg => .rejectedHandler loading msg) := by
  cases action <;> first | exact absurd rfl h0 | exact absurd rfl h1 | rfl

theorem apiMiddleware_invalid_throws (config : Config) (store action : JValue)
    (transport : JValue → JValue → JValue → JValue → Except JValue JValue)
    (h0 : action ≠ .null) (h1 : action ≠ .undefined)
    (h2 : getField action API_CALL ≠ .undefined)
    (h3 : validApiCall (getField action API_CALL) = false) :
    ∃ m, apiMiddleware config store action transport = .syncThrow m := by
  rw [apiMiddleware_eq_body config store action transport h0 h1]
  simp only [if_neg h2]
  by_cases hn : getField action API_CALL = .null
  · rw [if_pos hn]
    exact ⟨_, rfl⟩
  · rw [if_neg hn]
    by_cases hu : isString (getField (getField action API_CALL) "url") = true
    · by_cases ha : truthy (getField (getField action API_CALL) "actions") = true
      · have hrest : ¬ (truthy (getField (getField (getField action API_CALL) "actions") "SUCCESS") &&
                        truthy (getField (getField (getField action API_CALL) "actions") "ERROR") &&
                        truthy (getField (getField (getField action API_CALL) "actions") "LOADING")) = true := by
          intro hr
          simp only [Bool.and_eq_true] at hr
          have hv : validApiCall (getField action API_CALL) = true := by
            simp only [validApiCall, Bool.and_eq_true]
            exact ⟨⟨⟨⟨hu, ha⟩, hr.1.1⟩, hr.1.2⟩, hr.2⟩
          rw [hv] at h3
          exact absurd h3 (by simp)
        rw [if_neg (by simpa using hu), if_neg (by simpa using ha), if_pos (by simpa using hrest)]
        exact ⟨_, rfl⟩
      · rw [if_neg (by simpa using hu), if_pos (by simpa using ha)]
        exact ⟨_, rfl⟩
    · rw [if_pos (by simpa using hu)]
      exact ⟨_, rfl⟩

theorem lookupJ_spread_eq_none (v : JValue) (k : String) (h : hasField v k = false) :
    lookupJ (spreadFields v) k = none := by
  cases v with
  | obj fs => exact lookupJ_eq_none fs k (by simpa [hasField] using h)
  | jsError m ext =>
      simp only [hasField, Bool.or_eq_false_iff] at h
      exact lookupJ_eq_none ext k h.1
  | null => rfl
  | undefined => rfl
  | bool b => rfl
  | num n => rfl
  | str s => rfl

theorem createErrorAction_ok_of_ne (actions err meta : JValue)
    (h1 : err ≠ .null) (h2 : err ≠ .undefined) :
    ∃ a, createErrorAction actions err meta = .ok a := by
  cases err <;> first | exact absurd rfl h1 | exact absurd rfl h2 | exact ⟨_, rfl⟩

/-! ## Claim theorems -/

/-- C8: for every base name string n, createApiActionSet(n) returns an
Action Set whose LOADING, SUCCESS and ERROR fields are n suffixed with
"_LOADING", "_SUCCESS" and "_ERROR", with the base name retained under
actionName. The function is a total Lean function, so it is pure with no
failure modes. -/
theorem createApiActionSet_spec (n : String) :
    getField (createApiActionSet n) "LOADING" = .str (n ++ "_LOADING") ∧
    getField (createApiActionSet n) "SUCCESS" = .str (n ++ "_SUCCESS") ∧
    getField (createApiActionSet n) "ERROR" = .str (n ++ "_ERROR") ∧
    getField (createApiActionSet n) "actionName" = .str n := by
  refine ⟨?_, ?_, ?_, ?_⟩ <;>
    simp [createApiActionSet, getField, lookupJ, List.find?,
          apiActionType.LOADING, apiActionType.SUCCESS, apiActionType.ERROR,
          String.append_assoc]

/-- C7: for every incoming action that is not null/undefined and does not
carry a Call Descriptor under the API_CALL marker key (the property reads
as undefined), the middleware forwards the action unchanged to next and
returns the return value of next (the `passthrough` outcome), dispatching no
lifecycle message: the only call to next is the unchanged action itself. -/
theorem apiMiddleware_passthrough (config : Config) (store action : JValue)
    (transport : JValue → JValue → JValue → JValue → Except JValue JValue)
    (h0 : action ≠ .null) (h1 : action ≠ .undefined)
    (h2 : getField action API_CALL = .undefined) :
    apiMiddleware config store action transport = .passthrough action ∧
    nextCalls (apiMiddleware config store action transport) = [action] := by
  rw [apiMiddleware_eq_body config store action transport h0 h1]
  simp only [h2, if_pos rfl]
  exact ⟨rfl, rfl⟩

/-- Witness for C7: a plain `{type: "TEST"}` action passes through. -/
theorem apiMiddleware_passthrough_witness :
    apiMiddleware defaultConfig (.obj []) (.obj [("type", .str "TEST")])
        (fun _ _ _ _ => .ok .null) = .passthrough (.obj [("type", .str "TEST")]) ∧
    nextCalls (apiMiddleware defaultConfig (.obj []) (.obj [("type", .str "TEST")])
        (fun _ _ _ _ => .ok .null)) = [.obj [("type", .str "TEST")]] :=
  apiMiddleware_passthrough defaultConfig (.obj []) (.obj [("type", .str "TEST")])
    (fun _ _ _ _ => .ok .null) (by decide) (by decide) (by decide)

/-- C3: the response dispatch of callApi — a status in [200,300) resolves with
the parsed JSON body; status 401 rejects with an Error whose
unauthorized field is true; any other status rejects with the parsed
JSON error body itself, unwrapped. -/
theorem callApi_response_handling (status : Nat) (jsonBody : JValue) :
    (200 ≤ status ∧ status < 300 → callApiHandleResponse status jsonBody = .ok jsonBody) ∧
    (status = 401 →
      callApiHandleResponse status jsonBody =
        .error (.jsError "401 - Unauthorized" [("unauthorized", .bool true)]) ∧
      getField (.jsError "401 - Unauthorized" [("unauthorized", .bool true)]) "unauthorized" =
        .bool true) ∧
    (¬ (200 ≤ status ∧ status < 300) → status ≠ 401 →
      callApiHandleResponse status jsonBody = .error jsonBody) := by
  refine ⟨?_, ?_, ?_⟩
  · intro h
    simp [callApiHandleResponse, handleSuccessfulResponse, h]
  · intro h
    subst h
    refine ⟨?_, rfl⟩
    simp [callApiHandleResponse, handleUnauthorizedResponse]
  · intro h h401
    simp [callApiHandleResponse, handleErrorResponse, h, h401]

/-- Witness for C3 at statuses 204, 401 and 500. -/
theorem callApi_response_handling_witness :
    callApiHandleResponse 204 (.obj [("test", .bool true)]) = .ok (.obj [("test", .bool true)]) ∧
    callApiHandleResponse 401 (.obj []) =
      .error (.jsError "401 - Unauthorized" [("unauthorized", .bool true)]) ∧
    callApiHandleResponse 500 (.str "bad") = .error (.str "bad") :=
  ⟨(callApi_response_handling 204 (.obj [("test", .bool true)])).1 (by decide),
   ((callApi_response_handling 401 (.obj [])).2.1 rfl).1,
   (callApi_response_handling 500 (.str "bad")).2.2 (by decide) (by decide)⟩

/-- C9 counterexample: with metadata that itself carries an "error" key,
the trailing `...meta` spread silently overwrites the coerced string
field, so the error field of the returned message is the value from the metadata,
not err.toString() (here "X" instead of "boom"). -/
theorem createErrorAction_roundtrip_counterexample :
    (match createErrorAction (createApiActionSet "T") (.str "boom")
        (.obj [("error", .str "X")]) with
     | .ok a => getField a "error"
     | .error _ => .undefined) = .str "X" ∧
    jsToString (.str "boom") = some "boom" ∧
    JValue.str "X" ≠ .str "boom" := by
  refine ⟨by decide, rfl, by decide⟩

/-- C9 (amended): for every action set, every non-null non-undefined
error value err, and every metadata mapping carrying neither an "error"
nor a "rawError" key, the error field of the returned message is the string
coercion err.toString() and its rawError field is err itself. -/
theorem createErrorAction_roundtrip (actions err meta : JValue)
    (h1 : err ≠ .null) (h2 : err ≠ .undefined)
    (h3 : hasField meta "error" = false) (h4 : hasField meta "rawError" = false) :
    ∃ a s, createErrorAction actions err meta = .ok a ∧ jsToString err = some s ∧
      getField a "error" = .str s ∧ getField a "rawError" = err := by
  obtain ⟨s, hs⟩ : ∃ s, jsToString err = some s := by
    cases err <;> first | exact absurd rfl h1 | exact absurd rfl h2 | exact ⟨_, rfl⟩
  refine ⟨.obj ([("type", getField actions "ERROR"),
      ("apiActionType", .str apiActionType.ERROR), ("rawError", err),
      ("error", .str s), ("actionName", getField actions "actionName")] ++
      spreadFields meta), s, ?_, hs, ?_, ?_⟩
  · simp [createErrorAction, hs]
  · have hn : (spreadFields meta).reverse.find? (fun p => p.1 = "error") = none := by
      have h := lookupJ_spread_eq_none meta "error" h3
      unfold lookupJ at h
      exact Option.map_eq_none'.mp h
    simp [getField, lookupJ_append, lookupJ, List.find?, hn]
  · have hn : (spreadFields meta).reverse.find? (fun p => p.1 = "rawError") = none := by
      have h := lookupJ_spread_eq_none meta "rawError" h4
      unfold lookupJ at h
      exact Option.map_eq_none'.mp h
    simp [getField, lookupJ_append, lookupJ, List.find?, hn]

/-- Witness for C9 (amended) at err = "boom" with disjoint metadata. -/
theorem createErrorAction_roundtrip_witness :
    ∃ a s, createErrorAction (createApiActionSet "T") (.str "boom")
        (.obj [("firstName", .str "John")]) = .ok a ∧
      jsToString (.str "boom") = some s ∧
      getField a "error" = .str s ∧ getField a "rawError" = .str "boom" :=
  createErrorAction_roundtrip (createApiActionSet "T") (.str "boom")
    (.obj [("firstName", .str "John")]) (by decide) (by decide) (by decide) (by decide)

/-- C10: createErrorAction evaluates error.toString() unconditionally, so
it throws for null/undefined errors and returns a message for every
other error value; consequently the transport-rejection branch of the middleware
branch dispatches an Error message only for non-null non-undefined
rejection values — a null/undefined rejection makes the rejection
handler itself throw after only the Loading dispatch. -/
theorem createErrorAction_null_throws :
    (∀ actions meta : JValue,
       (∃ m, createErrorAction actions .null meta = .error m) ∧
       (∃ m, createErrorAction actions .undefined meta = .error m)) ∧
    (∀ actions err meta : JValue, err ≠ .null → err ≠ .undefined →
       ∃ a, createErrorAction actions err meta = .ok a) ∧
    (∀ (config : Config) (store action : JValue)
       (transport : JValue → JValue → JValue → JValue → Except JValue JValue) (e : JValue),
       action ≠ .null → action ≠ .undefined →
       getField action API_CALL ≠ .undefined →
       validApiCall (getField action API_CALL) = true →
       transport (getField (getField action API_CALL) "url")
         (getField (getField action API_CALL) "body")
         (getField (getField action API_CALL) "method")
         (buildApiOptions config store (getField action API_CALL)) = .error e →
       (e = .null ∨ e = .undefined) →
       ∃ m, apiMiddleware config store action transport =
         .rejectedHandler
           (createLoadingAction (getField (getField action API_CALL) "actions")
             (getField (getField action API_CALL) "meta")) m ∧
         nextCalls (apiMiddleware config store action transport) =
           [createLoadingAction (getField (getField action API_CALL) "actions")
             (getField (getField action API_CALL) "meta")]) := by
  refine ⟨fun actions meta => ⟨⟨_, rfl⟩, ⟨_, rfl⟩⟩,
          fun actions err meta h1 h2 => createErrorAction_ok_of_ne actions err meta h1 h2,
          ?_⟩
  intro config store action transport e h0 h1 h2 h3 htr he
  rw [apiMiddleware_valid_eq config store action transport h0 h1 h2 h3]
  simp only [htr]
  rcases he with he | he <;> subst he
  · exact ⟨_, rfl, rfl⟩
  · exact ⟨_, rfl, rfl⟩

/-- Witness for C10: a concrete descriptor whose transport rejects with
null reaches the rejected-handler outcome, and the two createErrorAction
conjuncts at concrete arguments. -/
theorem createErrorAction_null_throws_witness :
    (∃ m, createErrorAction (createApiActionSet "W") .null .undefined = .error m) ∧
    (∃ a, createErrorAction (createApiActionSet "W") (.str "x") .undefined = .ok a) ∧
    (∃ m, apiMiddleware defaultConfig (.obj [])
        (.obj [("API_CALL", .obj [("url", .str "/w"), ("actions", createApiActionSet "W")])])
        (fun _ _ _ _ => .error .null) =
      .rejectedHandler (createLoadingAction (createApiActionSet "W") .undefined) m ∧
      nextCalls (apiMiddleware defaultConfig (.obj [])
        (.obj [("API_CALL", .obj [("url", .str "/w"), ("actions", createApiActionSet "W")])])
        (fun _ _ _ _ => .error .null)) =
        [createLoadingAction (createApiActionSet "W") .undefined]) := by
  refine ⟨(createErrorAction_null_throws.1 (createApiActionSet "W") .undefined).1,
          createErrorAction_null_throws.2.1 (createApiActionSet "W") (.str "x") .undefined
            (by decide) (by decide), ?_⟩
  have h := createErrorAction_null_throws.2.2 defaultConfig (.obj [])
    (.obj [("API_CALL", .obj [("url", .str "/w"), ("actions", createApiActionSet "W")])])
    (fun _ _ _ _ => .error .null) .null
    (by decide) (by decide) (by decide) (by decide) (by decide) (Or.inl rfl)
  simpa using h

/-- The token source used by the C4 and C5 concrete instances. -/
def cfgTok : Config := ⟨some (fun _ => "tok")⟩

/-- C4 counterexample: `authenticated: null` is not explicitly false, a
token source is configured, yet no Authorization header is attached —
the condition in the code is truthiness (with a default that fires only on
undefined), not "not explicitly false". -/
theorem buildApiOptions_auth_header_counterexample :
    getField (getField (buildApiOptions cfgTok (.obj [])
        (.obj [("url", .str "/t"), ("authenticated", .null)])) "headers")
      "Authorization" = .undefined ∧
    JValue.undefined ≠ .str ("Bearer " ++ "tok") ∧
    JValue.null ≠ .bool false := by
  refine ⟨by decide, by decide, by decide⟩

/-- C4 (amended): for every descriptor whose authenticated field is
absent (undefined) or truthy, with a configured token source yielding
token t for the store, the outgoing options carry
headers.Authorization = "Bearer " + t, and every caller-supplied header
field other than Authorization is preserved through the merge (options
and its headers being mappings or absent, as the spec types them). -/
theorem buildApiOptions_auth_header (config : Config) (store apiCall : JValue)
    (f : JValue → String) (hcfg : config.getAuthToken = some f)
    (hauth : getField apiCall "authenticated" = .undefined ∨
             truthy (getField apiCall "authenticated") = true)
    (hopt : isUndefOrObj (getField apiCall "options") = true)
    (hhdr : isUndefOrObj (getField (getField apiCall "options") "headers") = true) :
    getField (getField (buildApiOptions config store apiCall) "headers") "Authorization" =
      .str ("Bearer " ++ f store) ∧
    ∀ k, k ≠ "Authorization" →
      getField (getField (buildApiOptions config store apiCall) "headers") k =
        getField (getField (getField apiCall "options") "headers") k := by
  have hA : truthy (match getField apiCall "authenticated" with
      | .undefined => JValue.bool true
      | v => v) = true := by
    rcases hauth with h | h
    · rw [h]
      rfl
    · cases hv : getField apiCall "authenticated" <;> rw [hv] at h <;> simp_all [truthy]
  have hout : buildApiOptions config store apiCall =
      .obj (spreadFields (JValue.obj (spreadFields (getField apiCall "options"))) ++
        [("headers", .obj (spreadFields (getField
            (JValue.obj (spreadFields (getField apiCall "options"))) "headers") ++
          [("Authorization", .str ("Bearer " ++ f store))]))]) := by
    rw [buildApiOptions, hcfg]
    simp only [hA, if_pos]
  rw [hout, getField_obj_append_last]
  constructor
  · rw [getField_obj_append_last]
  · intro k hk
    rw [getField_obj_append_other _ _ _ _ (fun h => hk h.symm)]
    rw [getField_obj_spread _ "headers" hopt,
        getField_obj_spread _ k hhdr]

/-- Witness for C4 (amended): authenticated omitted plus a caller header
X-A; the outgoing headers carry both Bearer tok and the preserved X-A. -/
theorem buildApiOptions_auth_header_witness :
    getField (getField (buildApiOptions cfgTok (.obj [])
        (.obj [("options", .obj [("headers", .obj [("X-A", .str "1")])])])) "headers")
      "Authorization" = .str ("Bearer " ++ "tok") ∧
    getField (getField (buildApiOptions cfgTok (.obj [])
        (.obj [("options", .obj [("headers", .obj [("X-A", .str "1")])])])) "headers")
      "X-A" = getField (getField (getField
        (.obj [("options", .obj [("headers", .obj [("X-A", .str "1")])])])
        "options") "headers") "X-A" := by
  have h := buildApiOptions_auth_header cfgTok (.obj [])
    (.obj [("options", .obj [("headers", .obj [("X-A", .str "1")])])])
    (fun _ => "tok") rfl (Or.inl (by decide)) (by decide) (by decide)
  exact ⟨h.1, h.2 "X-A" (by decide)⟩

/-- C5 counterexample: with authenticated false the middleware adds
nothing, but caller-supplied options that already contain an
Authorization header flow through to the transport, so the outgoing
options are not Authorization-free as the claim states. -/
theorem buildApiOptions_unauthenticated_counterexample :
    getField (getField (buildApiOptions cfgTok (.obj [])
        (.obj [("authenticated", .bool false),
               ("options", .obj [("headers", .obj [("Authorization", .str "X")])])]))
      "headers") "Authorization" = .str "X" ∧
    JValue.str "X" ≠ .undefined := by
  refine ⟨by decide, by decide⟩

/-- C5 (amended): for every descriptor with authenticated set to false,
the outgoing transport options are exactly the spread of the
caller-supplied options — so they carry an Authorization header only if
the options of the caller already did — and they are identical across any
two configured token sources. -/
theorem buildApiOptions_unauthenticated (config config2 : Config) (store apiCall : JValue)
    (hauth : getField apiCall "authenticated" = .bool false) :
    buildApiOptions config store apiCall =
      .obj (spreadFields (getField apiCall "options")) ∧
    buildApiOptions config store apiCall = buildApiOptions config2 store apiCall := by
  obtain ⟨t⟩ := config
  obtain ⟨t2⟩ := config2
  constructor
  · cases t <;> simp [buildApiOptions, hauth, truthy]
  · cases t <;> cases t2 <;> simp [buildApiOptions, hauth, truthy]

/-- Witness for C5 (amended) at a concrete descriptor, comparing the
configured token source against the default (absent) one. -/
theorem buildApiOptions_unauthenticated_witness :
    buildApiOptions cfgTok (.obj [])
        (.obj [("authenticated", .bool false), ("options", .obj [("mode", .str "cors")])]) =
      .obj (spreadFields (getField
        (.obj [("authenticated", .bool false), ("options", .obj [("mode", .str "cors")])])
        "options")) ∧
    buildApiOptions cfgTok (.obj [])
        (.obj [("authenticated", .bool false), ("options", .obj [("mode", .str "cors")])]) =
      buildApiOptions defaultConfig (.obj [])
        (.obj [("authenticated", .bool false), ("options", .obj [("mode", .str "cors")])]) :=
  buildApiOptions_unauthenticated cfgTok defaultConfig (.obj [])
    (.obj [("authenticated", .bool false), ("options", .obj [("mode", .str "cors")])])
    (by decide)

/-- C6 counterexample: for method "PUT" with a truthy body, the fetch
params carry no body at all and no content-type header — the
serialization branch tests strict equality with "POST" only. -/
theorem callApi_post_serialization_counterexample :
    truthy (.obj [("a", .num 1)]) = true ∧
    getField (callApiParams (.obj [("a", .num 1)]) (.str "PUT") (.obj [])) "body" =
      .undefined ∧
    getField (callApiParams (.obj [("a", .num 1)]) (.str "PUT") (.obj [])) "headers" =
      .undefined := by
  refine ⟨by decide, by decide, by decide⟩

/-- C6 (amended): callApi serializes the body to JSON and sets the JSON
content-type header exactly when the method is the string "POST"; for
every other (non-defaulted) method the fetch params are just the spread
options plus the method — no body is attached and no header is set. -/
theorem callApi_post_serialization :
    (∀ body options : JValue, truthy body = true →
       getField (callApiParams body (.str "POST") options) "body" =
         .str (jsonStringify body) ∧
       getField (getField (callApiParams body (.str "POST") options) "headers")
         "Content-Type" = .str "application/json;") ∧
    (∀ body m options : JValue, m ≠ .str "POST" → m ≠ .undefined →
       callApiParams body m options = .obj (spreadFields options ++ [("method", m)])) := by
  constructor
  · intro body options hb
    have hunf : callApiParams body (.str "POST") options =
        .obj ((spreadFields options ++ [("method", .str "POST")] ++
               [("body", .str (jsonStringify body))]) ++
          [("headers", .obj (spreadFields ((lookupJ (spreadFields options ++
              [("method", .str "POST")] ++ [("body", .str (jsonStringify body))])
              "headers").getD .undefined) ++
            [("Content-Type", .str "application/json;")]))]) := by
      have h0 : callApiParams body (.str "POST") options =
          .obj ((spreadFields options ++ [("method", .str "POST")] ++
                 [("body", if truthy body then .str (jsonStringify body) else body)]) ++
            [("headers", .obj (spreadFields ((lookupJ (spreadFields options ++
                [("method", .str "POST")] ++
                [("body", if truthy body then .str (jsonStringify body) else body)])
                "headers").getD .undefined) ++
              [("Content-Type", .str "application/json;")]))]) := rfl
      rw [h0, hb]
      simp
    constructor
    · rw [hunf, getField_obj_append_other _ _ _ _ (by decide), getField_obj_append_last]
    · rw [hunf, getField_obj_append_last, getField_obj_append_last]
  · intro body m options hm hu
    cases m with
    | undefined => exact absurd rfl hu
    | str s => exact if_neg hm
    | null => rfl
    | bool b => rfl
    | num n => rfl
    | jsError msg ext => rfl
    | obj fs => rfl

/-- Witness for C6 (amended): a POST with body `{a:1}` is serialized and
content-typed; a PUT with body `{x:2}` leaves the params untouched. -/
theorem callApi_post_serialization_witness :
    (getField (callApiParams (.obj [("a", .num 1)]) (.str "POST") (.obj [])) "body" =
       .str (jsonStringify (.obj [("a", .num 1)])) ∧
     getField (getField (callApiParams (.obj [("a", .num 1)]) (.str "POST") (.obj []))
       "headers") "Content-Type" = .str "application/json;") ∧
    callApiParams (.obj [("x", .num 2)]) (.str "PUT") (.obj [("mode", .str "cors")]) =
      .obj (spreadFields (.obj [("mode", .str "cors")]) ++ [("method", .str "PUT")]) :=
  ⟨callApi_post_serialization.1 (.obj [("a", .num 1)]) (.obj []) (by decide),
   callApi_post_serialization.2 (.obj [("x", .num 2)]) (.str "PUT")
     (.obj [("mode", .str "cors")]) (by decide) (by decide)⟩

theorem apiMiddleware_success_dispatch (config : Config) (store action : JValue)
    (transport : JValue → JValue → JValue → JValue → Except JValue JValue) (r : JValue)
    (h0 : action ≠ .null) (h1 : action ≠ .undefined)
    (h2 : getField action API_CALL ≠ .undefined)
    (h3 : validApiCall (getField action API_CALL) = true)
    (htr : transport (getField (getField action API_CALL) "url")
      (getField (getField action API_CALL) "body")
      (getField (getField action API_CALL) "method")
      (buildApiOptions config store (getField action API_CALL)) = .ok r) :
    apiMiddleware config store action transport =
      .settled
        (createLoadingAction (getField (getField action API_CALL) "actions")
          (getField (getField action API_CALL) "meta"))
        (createSuccessAction (getField (getField action API_CALL) "actions") r
          (getField (getField action API_CALL) "meta")) := by
  rw [apiMiddleware_valid_eq config store action transport h0 h1 h2 h3]
  simp only [htr]

theorem apiMiddleware_error_dispatch (config : Config) (store action : JValue)
    (transport : JValue → JValue → JValue → JValue → Except JValue JValue) (e : JValue)
    (h0 : action ≠ .null) (h1 : action ≠ .undefined)
    (h2 : getField action API_CALL ≠ .undefined)
    (h3 : validApiCall (getField action API_CALL) = true)
    (htr : transport (getField (getField action API_CALL) "url")
      (getField (getField action API_CALL) "body")
      (getField (getField action API_CALL) "method")
      (buildApiOptions config store (getField action API_CALL)) = .error e)
    (hn : e ≠ .null) (hu : e ≠ .undefined) :
    ∃ a, createErrorAction (getField (getField action API_CALL) "actions") e
        (getField (getField action API_CALL) "meta") = .ok a ∧
      apiMiddleware config store action transport =
        .settled
          (createLoadingAction (getField (getField action API_CALL) "actions")
            (getField (getField action API_CALL) "meta")) a := by
  rw [apiMiddleware_valid_eq config store action transport h0 h1 h2 h3]
  simp only [htr]
  cases e with
  | null => exact absurd rfl hn
  | undefined => exact absurd rfl hu
  | bool b => exact ⟨_, rfl, rfl⟩
  | num n => exact ⟨_, rfl, rfl⟩
  | str s => exact ⟨_, rfl, rfl⟩
  | jsError m ext => exact ⟨_, rfl, rfl⟩
  | obj fs => exact ⟨_, rfl, rfl⟩

/-- The valid Call Descriptor used by the C1 counterexample. -/
def lifecycleCexAction : JValue :=
  .obj [("API_CALL", .obj [("url", .str "/test"), ("actions", createApiActionSet "FETCH")])]

/-- C1 counterexample: a valid descriptor whose transport call rejects
with null (reachable as an HTTP 400 response whose JSON body is null,
per callApiHandleResponse) dispatches the Loading message and then
nothing — the rejection handler throws on `error.unauthorized`, so
neither a Success nor an Error message follows, refuting "never
neither". -/
theorem apiMiddleware_lifecycle_counterexample :
    validApiCall (getField lifecycleCexAction API_CALL) = true ∧
    callApiHandleResponse 400 .null = .error .null ∧
    nextCalls (apiMiddleware defaultConfig (.obj []) lifecycleCexAction
        (fun _ _ _ _ => callApiHandleResponse 400 .null)) =
      [createLoadingAction (createApiActionSet "FETCH") .undefined] := by
  refine ⟨by decide, by decide, by decide⟩

/-- C1 (amended): for every valid Call Descriptor, exactly one Loading
message is dispatched before the transport settles; if the transport
resolves, exactly one Success message follows; if it rejects with a
non-null non-undefined value, exactly one Error message follows (and
`nextCalls` lists the dispatches in order, so never both and never
neither in those cases — a null/undefined rejection instead aborts the
rejection handler after the Loading dispatch alone). -/
theorem apiMiddleware_lifecycle (config : Config) (store action : JValue)
    (transport : JValue → JValue → JValue → JValue → Except JValue JValue)
    (h0 : action ≠ .null) (h1 : action ≠ .undefined)
    (h2 : getField action API_CALL ≠ .undefined)
    (h3 : validApiCall (getField action API_CALL) = true) :
    (∀ r, transport (getField (getField action API_CALL) "url")
        (getField (getField action API_CALL) "body")
        (getField (getField action API_CALL) "method")
        (buildApiOptions config store (getField action API_CALL)) = .ok r →
      apiMiddleware config store action transport =
        .settled
          (createLoadingAction (getField (getField action API_CALL) "actions")
            (getField (getField action API_CALL) "meta"))
          (createSuccessAction (getField (getField action API_CALL) "actions") r
            (getField (getField action API_CALL) "meta")) ∧
      nextCalls (apiMiddleware config store action transport) =
        [createLoadingAction (getField (getField action API_CALL) "actions")
           (getField (getField action API_CALL) "meta"),
         createSuccessAction (getField (getField action API_CALL) "actions") r
           (getField (getField action API_CALL) "meta")]) ∧
    (∀ e, transport (getField (getField action API_CALL) "url")
        (getField (getField action API_CALL) "body")
        (getField (getField action API_CALL) "method")
        (buildApiOptions config store (getField action API_CALL)) = .error e →
      e ≠ .null → e ≠ .undefined →
      ∃ a, createErrorAction (getField (getField action API_CALL) "actions") e
          (getField (getField action API_CALL) "meta") = .ok a ∧
        apiMiddleware config store action transport =
          .settled
            (createLoadingAction (getField (getField action API_CALL) "actions")
              (getField (getField action API_CALL) "meta")) a ∧
        nextCalls (apiMiddleware config store action transport) =
          [createLoadingAction (getField (getField action API_CALL) "actions")
             (getField (getField action API_CALL) "meta"), a]) := by
  constructor
  · intro r htr
    have h := apiMiddleware_success_dispatch config store action transport r h0 h1 h2 h3 htr
    exact ⟨h, by rw [h]; rfl⟩
  · intro e htr hn hu
    obtain ⟨a, ha, h⟩ :=
      apiMiddleware_error_dispatch config store action transport e h0 h1 h2 h3 htr hn hu
    exact ⟨a, ha, h, by rw [h]; rfl⟩

/-- The valid Call Descriptor used by the C1 witness. -/
def lifecycleWitnessAction : JValue :=
  .obj [("API_CALL", .obj [("url", .str "/test"), ("actions", createApiActionSet "FETCH_W")])]

/-- Witness for C1 (amended): a concrete successful run dispatches
exactly Loading then Success. -/
theorem apiMiddleware_lifecycle_witness :
    apiMiddleware defaultConfig (.obj []) lifecycleWitnessAction
        (fun _ _ _ _ => .ok (.obj [("test", .bool true)])) =
      .settled
        (createLoadingAction (getField (getField lifecycleWitnessAction API_CALL) "actions")
          (getField (getField lifecycleWitnessAction API_CALL) "meta"))
        (createSuccessAction (getField (getField lifecycleWitnessAction API_CALL) "actions")
          (.obj [("test", .bool true)])
          (getField (getField lifecycleWitnessAction API_CALL) "meta")) ∧
    nextCalls (apiMiddleware defaultConfig (.obj []) lifecycleWitnessAction
        (fun _ _ _ _ => .ok (.obj [("test", .bool true)]))) =
      [createLoadingAction (getField (getField lifecycleWitnessAction API_CALL) "actions")
         (getField (getField lifecycleWitnessAction API_CALL) "meta"),
       createSuccessAction (getField (getField lifecycleWitnessAction API_CALL) "actions")
         (.obj [("test", .bool true)])
         (getField (getField lifecycleWitnessAction API_CALL) "meta")] :=
  (apiMiddleware_lifecycle defaultConfig (.obj []) lifecycleWitnessAction
    (fun _ _ _ _ => .ok (.obj [("test", .bool true)]))
    (by decide) (by decide) (by decide) (by decide)).1
    (.obj [("test", .bool true)]) rfl

/-- The valid Call Descriptor used by the C2 counterexample. -/
def failureCexAction : JValue :=
  .obj [("API_CALL", .obj [("url", .str "/users"), ("actions", createApiActionSet "FETCH_USERS")])]

/-- C2 counterexample: a transport rejection whose rejection value is
null does not yield a dispatched Error message — the rejection handler
throws on `error.unauthorized`, the returned promise rejects, and only
the Loading message is ever dispatched; so transport rejections are not
always converted into an Error message. -/
theorem apiMiddleware_failure_classes_counterexample :
    validApiCall (getField failureCexAction API_CALL) = true ∧
    apiMiddleware defaultConfig (.obj []) failureCexAction (fun _ _ _ _ => .error .null) =
      .rejectedHandler (createLoadingAction (createApiActionSet "FETCH_USERS") .undefined)
        "TypeError: cannot read properties of null" ∧
    nextCalls (apiMiddleware defaultConfig (.obj []) failureCexAction
        (fun _ _ _ _ => .error .null)) =
      [createLoadingAction (createApiActionSet "FETCH_USERS") .undefined] := by
  refine ⟨by decide, by decide, by decide⟩

/-- C2 (amended): the failures of the middleware split into two disjoint
classes — every descriptor whose url is not a string, or whose actions
field is absent, or whose action set lacks any of LOADING, SUCCESS or
ERROR, throws synchronously with no message dispatched; and every
transport rejection whose rejection value is not null/undefined never
throws and always dispatches exactly one Error lifecycle message (a
null/undefined rejection instead makes the rejection handler itself
throw after the Loading dispatch). -/
theorem apiMiddleware_failure_classes :
    (∀ (config : Config) (store action : JValue)
       (transport : JValue → JValue → JValue → JValue → Except JValue JValue),
       action ≠ .null → action ≠ .undefined →
       getField action API_CALL ≠ .undefined →
       (isString (getField (getField action API_CALL) "url") = false ∨
        getField (getField action API_CALL) "actions" = .undefined ∨
        hasField (getField (getField action API_CALL) "actions") "LOADING" = false ∨
        hasField (getField (getField action API_CALL) "actions") "SUCCESS" = false ∨
        hasField (getField (getField action API_CALL) "actions") "ERROR" = false) →
       ∃ m, apiMiddleware config store action transport = .syncThrow m ∧
         nextCalls (apiMiddleware config store action transport) = []) ∧
    (∀ (config : Config) (store action : JValue)
       (transport : JValue → JValue → JValue → JValue → Except JValue JValue) (e : JValue),
       action ≠ .null → action ≠ .undefined →
       getField action API_CALL ≠ .undefined →
       validApiCall (getField action API_CALL) = true →
       transport (getField (getField action API_CALL) "url")
         (getField (getField action API_CALL) "body")
         (getField (getField action API_CALL) "method")
         (buildApiOptions config store (getField action API_CALL)) = .error e →
       e ≠ .null → e ≠ .undefined →
       ∃ a, createErrorAction (getField (getField action API_CALL) "actions") e
           (getField (getField action API_CALL) "meta") = .ok a ∧
         apiMiddleware config store action transport =
           .settled (createLoadingAction (getField (getField action API_CALL) "actions")
             (getField (getField action API_CALL) "meta")) a) := by
  constructor
  · intro config store action transport h0 h1 h2 hbad
    have h3 : validApiCall (getField action API_CALL) = false := by
      cases hvc : validApiCall (getField action API_CALL) with
      | false => rfl
      | true =>
          exfalso
          have hv := hvc
          simp only [validApiCall, Bool.and_eq_true] at hv
          obtain ⟨⟨⟨⟨hu, ha⟩, hs⟩, he⟩, hl⟩ := hv
          rcases hbad with h | h | h | h | h
          · rw [h] at hu
            exact Bool.noConfusion hu
          · rw [h] at ha
            simp [truthy] at ha
          · rw [getField_eq_undefined_of_not_hasField _ _ h] at hl
            simp [truthy] at hl
          · rw [getField_eq_undefined_of_not_hasField _ _ h] at hs
            simp [truthy] at hs
          · rw [getField_eq_undefined_of_not_hasField _ _ h] at he
            simp [truthy] at he
    obtain ⟨m, hm⟩ := apiMiddleware_invalid_throws config store action transport h0 h1 h2 h3
    exact ⟨m, hm, by rw [hm]; rfl⟩
  · intro config store action transport e h0 h1 h2 h3 htr hn hu
    exact apiMiddleware_error_dispatch config store action transport e h0 h1 h2 h3 htr hn hu

/-- Witness for C2 (amended): a descriptor without a url throws with no
dispatch, and a rejection with a string error value dispatches exactly
Loading then Error. -/
theorem apiMiddleware_failure_classes_witness :
    (∃ m, apiMiddleware defaultConfig (.obj [])
        (.obj [("API_CALL", .obj [("body", .obj []), ("actions", .obj [])])])
        (fun _ _ _ _ => .ok .null) = .syncThrow m ∧
      nextCalls (apiMiddleware defaultConfig (.obj [])
        (.obj [("API_CALL", .obj [("body", .obj []), ("actions", .obj [])])])
        (fun _ _ _ _ => .ok .null)) = []) ∧
    (∃ a, createErrorAction (getField (getField failureCexAction API_CALL) "actions")
        (.str "bad") (getField (getField failureCexAction API_CALL) "meta") = .ok a ∧
      apiMiddleware defaultConfig (.obj []) failureCexAction
          (fun _ _ _ _ => .error (.str "bad")) =
        .settled (createLoadingAction (getField (getField failureCexAction API_CALL) "actions")
          (getField (getField failureCexAction API_CALL) "meta")) a) :=
  ⟨apiMiddleware_failure_classes.1 defaultConfig (.obj [])
     (.obj [("API_CALL", .obj [("body", .obj []), ("actions", .obj [])])])
     (fun _ _ _ _ => .ok .null) (by decide) (by decide) (by decide)
     (Or.inl (by decide)),
   apiMiddleware_failure_classes.2 defaultConfig (.obj []) failureCexAction
     (fun _ _ _ _ => .error (.str "bad")) (.str "bad")
     (by decide) (by decide) (by decide) (by decide) rfl (by decide) (by decide)⟩
